import Mathlib

/-!
Verification of the Report Metrics Extractor layer of the
marc-valdez/Google-Image-Scraper visualization notebooks.

The repository ships five notebooks (dataset_overview, image_properties,
temporal_analysis, duplicate_analysis, quality_analysis, and the scraping
driver juypter_main).  The notebooks import the extractor functions
(get_overview_metrics, get_file_size_stats, get_dimension_stats,
extract_quantitative_stats, get_temporal_metrics, get_duplicate_stats,
extract_quality_stats, create_quality_issues_df, format_bytes,
format_duration) from a `data_loader` module whose source is not part of the
reviewed files; those functions are modelled here from the specification's
operation contracts (section 4.1 of the spec).  The inline notebook
computations (uniqueness/duplicate rate, average aspect quotient) and the
driver loop of juypter_main.ipynb are embedded directly from the notebook
source.

Reports are parsed JSON documents; they are embedded as a `Json` value whose
objects are insertion-ordered association lists (Python dicts preserve
insertion order) and whose numbers are exact rationals.  Python's division,
which raises `ZeroDivisionError` on a zero denominator, is modelled by
`pyDiv : ℚ → ℚ → Option ℚ` returning `none` exactly on a zero denominator.
-/

/-- A parsed JSON value. Objects are insertion-ordered association lists,
matching Python dict semantics; numbers are exact rationals. -/
inductive Json where
  | null : Json
  | bool : Bool → Json
  | num : ℚ → Json
  | str : String → Json
  | arr : List Json → Json
  | obj : List (String × Json) → Json

/-- First-match lookup in an association list, the embedding of Python
`dict.__getitem__` / `dict.get` key search (dict keys are unique, so first
match equals the dict entry). -/
def lookupKey : List (String × Json) → String → Option Json
  | [], _ => none
  | (k, v) :: rest, key => if k = key then some v else lookupKey rest key

/-- Whether the value is a JSON object (a Python mapping). -/
def Json.isObj : Json → Bool
  | Json.obj _ => true
  | _ => false

/-- Whether the value is a JSON array (a Python list). -/
def Json.isArr : Json → Bool
  | Json.arr _ => true
  | _ => false

/-- The member list of an object, and `[]` for every non-object. -/
def Json.objEntries : Json → List (String × Json)
  | Json.obj kvs => kvs
  | _ => []

/-- Python `mapping.get(key, default)` on a JSON value. -/
def getD (j : Json) (key : String) (d : Json) : Json :=
  match lookupKey j.objEntries key with
  | some v => v
  | none => d

/-- `mapping.get(key, default)` where the caller expects a number: yields the
stored number, and the default when the key is absent (or non-numeric). -/
def getQD (j : Json) (key : String) (d : ℚ) : ℚ :=
  match lookupKey j.objEntries key with
  | some (Json.num q) => q
  | _ => d

/-- `mapping.get(key, default)` where the caller expects a string. -/
def getStrD (j : Json) (key : String) (d : String) : String :=
  match lookupKey j.objEntries key with
  | some (Json.str s) => s
  | _ => d

/-- Python division: raises `ZeroDivisionError` (here `none`) when the
denominator is zero, for ints and floats alike. -/
def pyDiv (a b : ℚ) : Option ℚ :=
  if b = 0 then none else some (a / b)

/-- Modelled from the spec: the guarded percentage derivation used across the
notebooks, `rate = 100 * numerator / denominator` guarded to `0` when
`denominator == 0` (spec section 4.1 / 7). -/
def rate100 (num den : ℚ) : ℚ :=
  if den = 0 then 0 else 100 * num / den

/-- Fixed-point rendering with two decimal places (the `f"{x:.2f}"` of the
formatting helpers), for the non-negative values the formatters produce. -/
def formatFixed2 (q : ℚ) : String :=
  let c : ℕ := (Int.floor (q * 100 + 1 / 2)).toNat
  toString (c / 100) ++ "." ++ (if c % 100 < 10 then "0" else "") ++ toString (c % 100)

/-- The 1024-based byte units of `format_bytes`. -/
def byteUnits : List String := ["B", "KB", "MB", "GB", "TB"]

/-- Walk the unit list, dividing by 1024 while the value still reaches the
next unit, so the chosen unit is the largest one where the value is ≥ 1. -/
def pickUnit : ℚ → List String → ℚ × String
  | q, [] => (q, "")
  | q, [u] => (q, u)
  | q, u :: rest => if q < 1024 then (q, u) else pickUnit (q / 1024) rest

/-- Modelled from the spec: `format_bytes(n)` from the missing `data_loader`
module — a human-readable byte string, converting at 1024 boundaries with two
decimal places and the unit suffix chosen as the largest unit where the value
is at least 1; zero renders as the zero-unit string `0 B` (spec sections 4.1
and 8). -/
def format_bytes (n : ℕ) : String :=
  if n = 0 then "0 B"
  else
    let p := pickUnit (n : ℚ) byteUnits
    formatFixed2 p.1 ++ " " ++ p.2

/-- A count with an English unit name, pluralized away from 1. -/
def pluralize (n : ℤ) (unit : String) : String :=
  toString n ++ " " ++ unit ++ (if n = 1 then "" else "s")

/-- Minutes rendering of a sub-hour duration. -/
def renderMinutes (hours : ℚ) : String :=
  pluralize (Int.floor (hours * 60)) "minute"

/-- Hours-plus-minutes rendering of a sub-day duration. -/
def renderHoursMinutes (hours : ℚ) : String :=
  pluralize (Int.floor hours) "hour" ++ ", " ++
    pluralize (Int.floor ((hours - (Int.floor hours : ℤ)) * 60)) "minute"

/-- Days-plus-hours rendering of a duration of a day or more. -/
def renderDaysHours (hours : ℚ) : String :=
  pluralize (Int.floor (hours / 24)) "day" ++ ", " ++
    pluralize (Int.floor (hours - 24 * ((Int.floor (hours / 24) : ℤ) : ℚ))) "hour"

/-- Modelled from the spec: `format_duration(hours)` from the missing
`data_loader` module — minutes when below one hour, hours plus minutes when
below 24 hours, days plus hours otherwise (spec sections 4.1 and 8). -/
def format_duration (hours : ℚ) : String :=
  if hours < 1 then renderMinutes hours
  else if hours < 24 then renderHoursMinutes hours
  else renderDaysHours hours

/-- The error taxonomy of the extractor layer (spec section 7):
`malformedReport` when the top-level argument is not a mapping,
`missingData` when `get_overview_metrics` finds no `quantitative_statistics`. -/
inductive ExtractorError where
  | malformedReport : ExtractorError
  | missingData : ExtractorError
deriving DecidableEq

/-- Output of `get_overview_metrics`. -/
structure OverviewMetrics where
  total_images : ℚ
  total_classes : ℕ
  total_categories : ℕ
  success_rate : ℚ
  avg_file_size_mb : ℚ
deriving DecidableEq

/-- Output of `get_file_size_stats`: the `file_size` mapping with every
missing key defaulted to 0. -/
structure FileSizeStats where
  average_bytes : ℚ
  min_bytes : ℚ
  max_bytes : ℚ
  total_bytes : ℚ
deriving DecidableEq

/-- Output of `get_dimension_stats`: the `dimensions` mapping with every
missing key defaulted to 0. -/
structure DimensionStats where
  avg_width : ℚ
  avg_height : ℚ
  min_width : ℚ
  min_height : ℚ
  max_width : ℚ
  max_height : ℚ
deriving DecidableEq

/-- Output of `extract_quantitative_stats`: the `formats` and `color_modes`
pass-through mappings. -/
structure QuantStats where
  formats : Json
  color_modes : Json

/-- Output of `get_temporal_metrics`. -/
structure TemporalMetrics where
  earliest : String
  latest : String
  duration_hours : ℚ
  avg_interval_seconds : ℚ
  avg_interval_minutes : ℚ
deriving DecidableEq

/-- Output of `get_duplicate_stats`: the hash summary pass-through. -/
structure DuplicateStats where
  total_count : ℚ
  unique_count : ℚ
  duplicate_count : ℚ
  duplicate_summary : Json

/-- One row of the quality-issues table. -/
structure QualityIssueRow where
  className : String
  urls_found : ℚ
  urls_downloaded : ℚ
  missing_downloads : ℚ
  success_rate : ℚ
deriving DecidableEq

/-- Modelled from the spec: `get_overview_metrics` from the missing
`data_loader` module — `MalformedReportError` when the argument is not a
mapping, `MissingDataError` when `quantitative_statistics` is absent,
otherwise the overview scalars with each individually missing field
defaulting to 0 (spec section 4.1). -/
def get_overview_metrics (j : Json) : Except ExtractorError OverviewMetrics :=
  match j with
  | Json.obj kvs =>
    match lookupKey kvs "quantitative_statistics" with
    | none => Except.error ExtractorError.missingData
    | some qs =>
      Except.ok
        { total_images := getQD qs "total_image_count" 0
          total_classes := (Json.objEntries (getD qs "images_per_class" (Json.obj []))).length
          total_categories := (Json.objEntries (getD qs "images_per_category" (Json.obj []))).length
          success_rate := getQD (getD (Json.obj kvs) "quality_checks" (Json.obj [])) "success_rate" 0
          avg_file_size_mb := getQD (getD qs "file_size" (Json.obj [])) "average_bytes" 0 / (1024 * 1024) }
  | _ => Except.error ExtractorError.malformedReport

/-- Modelled from the spec: `get_file_size_stats` — pass-through of the
`file_size` mapping, defaulting every missing key to 0 (spec section 4.1). -/
def get_file_size_stats (j : Json) : Except ExtractorError FileSizeStats :=
  match j with
  | Json.obj kvs =>
    let fs := getD (getD (Json.obj kvs) "quantitative_statistics" (Json.obj [])) "file_size" (Json.obj [])
    Except.ok
      { average_bytes := getQD fs "average_bytes" 0
        min_bytes := getQD fs "min_bytes" 0
        max_bytes := getQD fs "max_bytes" 0
        total_bytes := getQD fs "total_bytes" 0 }
  | _ => Except.error ExtractorError.malformedReport

/-- Modelled from the spec: `get_dimension_stats` — pass-through of the
`dimensions` mapping, defaulting every missing key to 0 (spec section 4.1). -/
def get_dimension_stats (j : Json) : Except ExtractorError DimensionStats :=
  match j with
  | Json.obj kvs =>
    let dm := getD (getD (Json.obj kvs) "quantitative_statistics" (Json.obj [])) "dimensions" (Json.obj [])
    Except.ok
      { avg_width := getQD dm "avg_width" 0
        avg_height := getQD dm "avg_height" 0
        min_width := getQD dm "min_width" 0
        min_height := getQD dm "min_height" 0
        max_width := getQD dm "max_width" 0
        max_height := getQD dm "max_height" 0 }
  | _ => Except.error ExtractorError.malformedReport

/-- Modelled from the spec: `extract_quantitative_stats` — the `formats` and
`color_modes` pass-through mappings (spec section 4.1). -/
def extract_quantitative_stats (j : Json) : Except ExtractorError QuantStats :=
  match j with
  | Json.obj kvs =>
    let qs := getD (Json.obj kvs) "quantitative_statistics" (Json.obj [])
    Except.ok
      { formats := getD qs "formats" (Json.obj [])
        color_modes := getD qs "color_modes" (Json.obj []) }
  | _ => Except.error ExtractorError.malformedReport

/-- Modelled from the spec: `get_temporal_metrics` — pass-through of
`temporal_statistics`, with `avg_interval_minutes` recomputed as
`avg_interval_seconds / 60` when absent (spec section 4.1). -/
def get_temporal_metrics (j : Json) : Except ExtractorError TemporalMetrics :=
  match j with
  | Json.obj kvs =>
    let ts := getD (Json.obj kvs) "temporal_statistics" (Json.obj [])
    let secs := getQD ts "avg_interval_seconds" 0
    Except.ok
      { earliest := getStrD ts "earliest" ""
        latest := getStrD ts "latest" ""
        duration_hours := getQD ts "duration_hours" 0
        avg_interval_seconds := secs
        avg_interval_minutes :=
          match lookupKey ts.objEntries "avg_interval_minutes" with
          | some (Json.num q) => q
          | _ => secs / 60 }
  | _ => Except.error ExtractorError.malformedReport

/-- Modelled from the spec: `get_duplicate_stats` — pass-through of the
`hashes` duplicate-detection summary with defaults of 0 and an empty
mapping for `duplicate_summary` (spec sections 3 and 4.1). -/
def get_duplicate_stats (j : Json) : Except ExtractorError DuplicateStats :=
  match j with
  | Json.obj kvs =>
    let hs := getD (getD (Json.obj kvs) "quantitative_statistics" (Json.obj [])) "hashes" (Json.obj [])
    Except.ok
      { total_count := getQD hs "total_count" 0
        unique_count := getQD hs "unique_count" 0
        duplicate_count := getQD hs "duplicate_count" 0
        duplicate_summary := getD hs "duplicate_summary" (Json.obj []) }
  | _ => Except.error ExtractorError.malformedReport

/-- Modelled from the spec: `extract_quality_stats` — pass-through of the
`quality_checks` top level (spec section 4.1). -/
def extract_quality_stats (j : Json) : Except ExtractorError Json :=
  match j with
  | Json.obj kvs => Except.ok (getD (Json.obj kvs) "quality_checks" (Json.obj []))
  | _ => Except.error ExtractorError.malformedReport

/-- One row of the quality-issues table for a class whose per-class stats are
`st`: `missing_downloads = urls_found - urls_downloaded` and
`success_rate = 100 * urls_downloaded / urls_found` guarded to 0. -/
def mkIssueRow (cls : String) (st : Json) : QualityIssueRow :=
  let found := getQD st "urls_found" 0
  let dl := getQD st "urls_downloaded" 0
  { className := cls
    urls_found := found
    urls_downloaded := dl
    missing_downloads := found - dl
    success_rate := rate100 dl found }

/-- The row-building loop of `create_quality_issues_df`: walk the per-class
breakdown in insertion order, appending a row for each class whose
`urls_found` exceeds `urls_downloaded`. -/
def buildIssueRows : List (String × Json) → List QualityIssueRow
  | [] => []
  | (cls, st) :: rest =>
    if getQD st "urls_downloaded" 0 < getQD st "urls_found" 0 then
      mkIssueRow cls st :: buildIssueRows rest
    else
      buildIssueRows rest

/-- The per-class quality breakdown of a report's entries.  The spec (section
3) places a per-class breakdown inside `quality_checks` without naming its
key; this model uses `classes`. -/
def classBreakdown (kvs : List (String × Json)) : List (String × Json) :=
  Json.objEntries (getD (getD (Json.obj kvs) "quality_checks" (Json.obj [])) "classes" (Json.obj []))

/-- Modelled from the spec: `create_quality_issues_df` from the missing
`data_loader` module — the ordered table of rows, one per class of the
per-class breakdown whose `missing_downloads > 0`, in insertion order (spec
section 4.1). -/
def create_quality_issues_df (j : Json) : Except ExtractorError (List QualityIssueRow) :=
  match j with
  | Json.obj kvs => Except.ok (buildIssueRows (classBreakdown kvs))
  | _ => Except.error ExtractorError.malformedReport

/-- Embedding of the duplicate_analysis notebook line
`uniqueness_rate = (duplicate_stats['unique_count'] / duplicate_stats['total_count']) * 100`:
an unguarded Python division of the extracted counts (`none` = the
`ZeroDivisionError` the notebook raises when `total_count` is 0). -/
def notebook_uniqueness_rate (j : Json) : Except ExtractorError (Option ℚ) :=
  Except.map
    (fun s => Option.map (fun r => r * 100) (pyDiv s.unique_count s.total_count))
    (get_duplicate_stats j)

/-- Embedding of the duplicate_analysis notebook line
`duplicate_rate = (duplicate_stats['duplicate_count'] / duplicate_stats['total_count']) * 100`. -/
def notebook_duplicate_rate (j : Json) : Except ExtractorError (Option ℚ) :=
  Except.map
    (fun s => Option.map (fun r => r * 100) (pyDiv s.duplicate_count s.total_count))
    (get_duplicate_stats j)

/-- Embedding of the image_properties notebook line
`avg_aspect_ratio = dim_stats.get('avg_width', 1) / dim_stats.get('avg_height', 1)`:
an unguarded Python division of the extracted average dimensions (the
spec-modelled `get_dimension_stats` materializes every key with default 0, so
the notebook's own `.get(..., 1)` defaults never fire). -/
def notebook_avg_aspect (j : Json) : Except ExtractorError (Option ℚ) :=
  Except.map (fun s => pyDiv s.avg_width s.avg_height) (get_dimension_stats j)

/-- A scraper invocation the juypter_main driver loop would perform: the
category directory and the class name used as the search key. -/
structure ScrapeStep where
  category : String
  className : String
deriving DecidableEq

/-- The juypter_main validity check for one class-name entry:
`isinstance(class_name, str) and class_name.strip()` — a string whose
whitespace-stripped form is non-empty. -/
def validClassName : Json → Option String
  | Json.str s => if s.trim = "" then none else some s
  | _ => none

/-- The warning the driver prints when a category's value is not a list. -/
def warnBadCategory (cat : String) : String :=
  "[WARN] Expected a list of class names for category " ++ cat ++ ". Skipping."

/-- The warning the driver prints when a class-name entry is invalid. -/
def warnBadClass (cat : String) : String :=
  "[WARN] Invalid class name in category " ++ cat ++ ". Skipping."

/-- The inner class loop of juypter_main.ipynb: each invalid entry emits a
warning and is skipped, each valid one becomes a scraper invocation. -/
def processClassEntries (cat : String) : List Json → List ScrapeStep × List String
  | [] => ([], [])
  | j :: rest =>
    let t := processClassEntries cat rest
    match validClassName j with
    | some s => ({ category := cat, className := s } :: t.1, t.2)
    | none => (t.1, warnBadClass cat :: t.2)

/-- One iteration of the outer category loop of juypter_main.ipynb: a
non-list value emits a warning and contributes no scraper invocations. -/
def processCategory (cat : String) (v : Json) : List ScrapeStep × List String :=
  match v with
  | Json.arr items => processClassEntries cat items
  | _ => ([], [warnBadCategory cat])

/-- The full driver loop of juypter_main.ipynb over the `categories_data`
items, collecting the scraper invocations and the warnings in order. -/
def runCategoriesLoop : List (String × Json) → List ScrapeStep × List String
  | [] => ([], [])
  | (cat, v) :: rest =>
    let h := processCategory cat v
    let t := runCategoriesLoop rest
    (h.1 ++ t.1, h.2 ++ t.2)

/-- Two successive calls of the same extractor in one notebook session,
returning both results (the session state an impure implementation could
leak between calls has no counterpart: the embedded extractors take only the
report). -/
def callTwice {α β : Type} (f : α → β) (x : α) : β × β :=
  (f x, f x)

/-- An extractor call threaded through the report state: the result together
with the report value after the call. The embedded extractors only read the
report, so the second component is the input itself. -/
def callOn {α : Type} (f : Json → α) (j : Json) : α × Json :=
  (f j, j)

/-- C6: `format_bytes` uses the largest 1024-based unit for which the value
is at least 1, with two decimal places and a unit suffix; in particular
`format_bytes 0 = "0 B"`, `format_bytes 1536` renders with the KB unit and
value 1.50, and `format_bytes (1024*1024*2)` renders with the MB unit and
value 2.00. -/
theorem format_bytes_spec :
    format_bytes 0 = "0 B" ∧
    format_bytes 1536 = "1.50 KB" ∧
    format_bytes (1024 * 1024 * 2) = "2.00 MB" ∧
    (∀ n : ℕ, 0 < n → n < 1024 → format_bytes n = formatFixed2 (n : ℚ) ++ " B") ∧
    (∀ n : ℕ, 1024 ≤ n → n < 1024 ^ 2 →
      format_bytes n = formatFixed2 ((n : ℚ) / 1024) ++ " KB") ∧
    (∀ n : ℕ, 1024 ^ 2 ≤ n → n < 1024 ^ 3 →
      format_bytes n = formatFixed2 ((n : ℚ) / 1024 ^ 2) ++ " MB") := by
  refine ⟨?_, ?_, ?_, ?_, ?_, ?_⟩
  · norm_num [format_bytes]
  · norm_num [format_bytes, pickUnit, byteUnits, formatFixed2]
    decide
  · norm_num [format_bytes, pickUnit, byteUnits, formatFixed2]
    decide
  · intro n h0 h1
    have hn : ¬ n = 0 := Nat.pos_iff_ne_zero.mp h0
    have hq : (n : ℚ) < 1024 := by exact_mod_cast h1
    simp only [format_bytes, if_neg hn, byteUnits, pickUnit, if_pos hq]
    exact String.append_assoc _ " " "B"
  · intro n h0 h1
    have hn : ¬ n = 0 := by omega
    have hq : ¬ ((n : ℚ) < 1024) := by
      push_neg
      exact_mod_cast h0
    have hq2 : (n : ℚ) / 1024 < 1024 := by
      rw [div_lt_iff₀ (by norm_num : (0:ℚ) < 1024)]
      norm_num
      exact_mod_cast h1
    simp only [format_bytes, if_neg hn, byteUnits, pickUnit, if_neg hq, if_pos hq2]
    exact String.append_assoc _ " " "KB"
  · intro n h0 h1
    have hn : ¬ n = 0 := by positivity
    have hq : ¬ ((n : ℚ) < 1024) := by
      push_neg
      have h2 : (1024 : ℕ) ≤ n := by
        calc (1024 : ℕ) ≤ 1024 ^ 2 := by norm_num
        _ ≤ n := h0
      exact_mod_cast h2
    have hq2 : ¬ ((n : ℚ) / 1024 < 1024) := by
      push_neg
      rw [le_div_iff₀ (by norm_num : (0:ℚ) < 1024)]
      have h3 : ((1024 : ℚ) ^ 2 ≤ (n : ℚ)) := by exact_mod_cast h0
      norm_num
      linarith
    have hq3 : (n : ℚ) / 1024 / 1024 < 1024 := by
      rw [div_div, div_lt_iff₀ (by norm_num : (0:ℚ) < 1024 * 1024)]
      have h3 : ((n : ℚ) < 1024 ^ 3) := by exact_mod_cast h1
      linarith
    simp only [format_bytes, if_neg hn, byteUnits, pickUnit, if_neg hq, if_neg hq2, if_pos hq3]
    rw [div_div]
    norm_num
    exact String.append_assoc _ " " "MB"

/-- Witness for `format_bytes_spec`: at the concrete input 2048 the KB range
hypotheses hold and the theorem yields the KB rendering. -/
theorem format_bytes_spec_witness :
    (1024 ≤ 2048 ∧ 2048 < 1024 ^ 2) ∧
    format_bytes 2048 = formatFixed2 ((2048 : ℚ) / 1024) ++ " KB" :=
  ⟨⟨by norm_num, by norm_num⟩,
    format_bytes_spec.2.2.2.2.1 2048 (by norm_num) (by norm_num)⟩

/-- C7: `format_duration` renders in minutes below one hour, in hours plus
minutes below 24 hours, and in days plus hours otherwise; in particular
`format_duration 0.5 = "30 minutes"` and
`format_duration 36 = "1 day, 12 hours"`. -/
theorem format_duration_spec :
    format_duration (1 / 2) = "30 minutes" ∧
    format_duration 36 = "1 day, 12 hours" ∧
    (∀ q : ℚ, q < 1 → format_duration q = renderMinutes q) ∧
    (∀ q : ℚ, 1 ≤ q → q < 24 → format_duration q = renderHoursMinutes q) ∧
    (∀ q : ℚ, 24 ≤ q → format_duration q = renderDaysHours q) := by
  refine ⟨?_, ?_, ?_, ?_, ?_⟩
  · norm_num [format_duration, renderMinutes, pluralize]
    decide
  · norm_num [format_duration, renderDaysHours, pluralize]
    decide
  · intro q hq
    simp only [format_duration, if_pos hq]
  · intro q h1 h2
    simp only [format_duration, if_neg (not_lt.mpr h1), if_pos h2]
  · intro q h1
    have g1 : ¬ q < 1 := by
      push_neg
      linarith
    have g2 : ¬ q < 24 := not_lt.mpr h1
    simp only [format_duration, if_neg g1, if_neg g2]

/-- Witness for `format_duration_spec`: at the concrete input 2.5 hours the
hours-plus-minutes range hypotheses hold and the theorem applies. -/
theorem format_duration_spec_witness :
    ((1 : ℚ) ≤ 5 / 2 ∧ (5 / 2 : ℚ) < 24) ∧
    format_duration (5 / 2) = renderHoursMinutes (5 / 2) :=
  ⟨⟨by norm_num, by norm_num⟩,
    format_duration_spec.2.2.2.1 (5 / 2) (by norm_num) (by norm_num)⟩

/-- A report whose `quantitative_statistics` carries no `hashes` summary
(the spec's "partial report" scenario, e.g. generated before duplicate
detection was added): every hash count defaults to 0. -/
def reportNoHashes : Json :=
  Json.obj [("quantitative_statistics", Json.obj [])]

/-- A report whose dimension statistics carry a zero average height. -/
def reportZeroHeight : Json :=
  Json.obj
    [("quantitative_statistics",
      Json.obj
        [("dimensions",
          Json.obj [("avg_width", Json.num 640), ("avg_height", Json.num 0)])])]

/-- C1: the spec requires every ratio derivation to return 0 on a zero
denominator and never raise, and the spec-modelled guarded derivation
`rate100` does so; but the inline notebook derivations divide unguarded:
on a report with `total_count = 0` the duplicate_analysis notebook's
uniqueness/duplicate rate raises `ZeroDivisionError` (embedded: `none`),
and on a zero average height the image_properties notebook's aspect
computation raises as well. -/
theorem notebook_rates_divide_by_zero :
    notebook_uniqueness_rate reportNoHashes = Except.ok none ∧
    notebook_duplicate_rate reportNoHashes = Except.ok none ∧
    notebook_avg_aspect reportZeroHeight = Except.ok none ∧
    (Except.ok none : Except ExtractorError (Option ℚ)) ≠ Except.ok (some 0) ∧
    rate100 640 0 = 0 ∧
    rate100 0 0 = 0 := by
  refine ⟨?_, ?_, ?_, ?_, ?_, ?_⟩
  · simp [notebook_uniqueness_rate, get_duplicate_stats, reportNoHashes, getD, getQD,
      lookupKey, Json.objEntries, pyDiv, Except.map]
  · simp [notebook_duplicate_rate, get_duplicate_stats, reportNoHashes, getD, getQD,
      lookupKey, Json.objEntries, pyDiv, Except.map]
  · simp [notebook_avg_aspect, get_dimension_stats, reportZeroHeight, getD, getQD,
      lookupKey, Json.objEntries, pyDiv, Except.map]
  · simp
  · simp [rate100]
  · simp [rate100]

/-- The driver loop distributes over concatenation of the category items:
processing is entry-by-entry, so no entry can abort the rest. -/
theorem runCategoriesLoop_append (xs ys : List (String × Json)) :
    runCategoriesLoop (xs ++ ys) =
      ((runCategoriesLoop xs).1 ++ (runCategoriesLoop ys).1,
       (runCategoriesLoop xs).2 ++ (runCategoriesLoop ys).2) := by
  induction xs with
  | nil => simp [runCategoriesLoop]
  | cons p rest ih =>
    cases p with
    | mk cat v => simp [runCategoriesLoop, ih]

/-- The inner class loop distributes over concatenation of the entries. -/
theorem processClassEntries_append (cat : String) (xs ys : List Json) :
    processClassEntries cat (xs ++ ys) =
      ((processClassEntries cat xs).1 ++ (processClassEntries cat ys).1,
       (processClassEntries cat xs).2 ++ (processClassEntries cat ys).2) := by
  induction xs with
  | nil => simp [processClassEntries]
  | cons j rest ih =>
    simp only [List.cons_append, processClassEntries, ih]
    cases validClassName j <;> simp [ih]

/-- A non-list category value contributes no scraper invocations, only its
warning. -/
theorem processCategory_not_list (cat : String) (v : Json) (hv : v.isArr = false) :
    processCategory cat v = ([], [warnBadCategory cat]) := by
  cases v <;> simp_all [processCategory, Json.isArr]

/-- C10: the juypter_main driver loop tolerates malformed category data: a
category whose value is not a list is warned about and skipped, an entry
that is not a non-empty non-blank string is warned about and skipped, and in
both cases the scraper invocations of all other categories and classes are
exactly those performed without the malformed entry. -/
theorem driver_loop_skips_malformed :
    (∀ (pre post : List (String × Json)) (cat : String) (v : Json),
      v.isArr = false →
        (runCategoriesLoop (pre ++ (cat, v) :: post)).1 =
          (runCategoriesLoop pre).1 ++ (runCategoriesLoop post).1 ∧
        warnBadCategory cat ∈ (runCategoriesLoop (pre ++ (cat, v) :: post)).2) ∧
    (∀ (cat : String) (xs ys : List Json) (bad : Json),
      validClassName bad = none →
        (processCategory cat (Json.arr (xs ++ bad :: ys))).1 =
          (processCategory cat (Json.arr xs)).1 ++ (processCategory cat (Json.arr ys)).1 ∧
        warnBadClass cat ∈ (processCategory cat (Json.arr (xs ++ bad :: ys))).2) := by
  constructor
  · intro pre post cat v hv
    have hstep : runCategoriesLoop ((cat, v) :: post) =
        ((runCategoriesLoop post).1, warnBadCategory cat :: (runCategoriesLoop post).2) := by
      simp [runCategoriesLoop, processCategory_not_list cat v hv]
    constructor
    · rw [runCategoriesLoop_append, hstep]
    · rw [runCategoriesLoop_append, hstep]
      simp
  · intro cat xs ys bad hbad
    have hstep : processClassEntries cat (bad :: ys) =
        ((processClassEntries cat ys).1, warnBadClass cat :: (processClassEntries cat ys).2) := by
      simp [processClassEntries, hbad]
    constructor
    · simp only [processCategory]
      rw [processClassEntries_append, hstep]
    · simp only [processCategory]
      rw [processClassEntries_append, hstep]
      simp

/-- Witness for `driver_loop_skips_malformed`: a concrete categories mapping
whose middle category value is a number, not a list — the two surrounding
categories are still processed and the warning is emitted. -/
theorem driver_loop_skips_malformed_witness :
    (Json.num 3).isArr = false ∧
    ((runCategoriesLoop
        ([("Go", Json.arr [Json.str "adobo"])] ++
          ("Grow", Json.num 3) :: [("Glow", Json.arr [Json.str "malunggay"])])).1 =
      (runCategoriesLoop [("Go", Json.arr [Json.str "adobo"])]).1 ++
        (runCategoriesLoop [("Glow", Json.arr [Json.str "malunggay"])]).1 ∧
      warnBadCategory "Grow" ∈
        (runCategoriesLoop
          ([("Go", Json.arr [Json.str "adobo"])] ++
            ("Grow", Json.num 3) :: [("Glow", Json.arr [Json.str "malunggay"])])).2) :=
  ⟨rfl,
    driver_loop_skips_malformed.1
      [("Go", Json.arr [Json.str "adobo"])]
      [("Glow", Json.arr [Json.str "malunggay"])]
      "Grow" (Json.num 3) rfl⟩

/-- C2: `create_quality_issues_df` returns exactly one row per class of the
per-class breakdown whose `urls_found` exceeds `urls_downloaded`, in the
breakdown's insertion order, each row carrying
`missing_downloads = urls_found - urls_downloaded` and
`success_rate = 100 * urls_downloaded / urls_found` (0 when
`urls_found = 0`); the table is empty when every class has
`urls_found = urls_downloaded`. -/
theorem quality_issues_table_spec :
    (∀ kvs : List (String × Json),
      create_quality_issues_df (Json.obj kvs) =
        Except.ok
          (((classBreakdown kvs).filter
              (fun p => decide (getQD p.2 "urls_downloaded" 0 < getQD p.2 "urls_found" 0))).map
            (fun p => mkIssueRow p.1 p.2))) ∧
    (∀ (bd : List (String × Json)) (r : QualityIssueRow), r ∈ buildIssueRows bd →
      r.missing_downloads = r.urls_found - r.urls_downloaded ∧
      r.success_rate = rate100 r.urls_downloaded r.urls_found ∧
      r.urls_downloaded < r.urls_found ∧
      (r.urls_found = 0 → r.success_rate = 0)) ∧
    (∀ bd : List (String × Json),
      (∀ p ∈ bd, getQD p.2 "urls_found" 0 = getQD p.2 "urls_downloaded" 0) →
      buildIssueRows bd = []) := by
  have key : ∀ bd : List (String × Json),
      buildIssueRows bd =
        ((bd.filter
            (fun p => decide (getQD p.2 "urls_downloaded" 0 < getQD p.2 "urls_found" 0))).map
          (fun p => mkIssueRow p.1 p.2)) := by
    intro bd
    induction bd with
    | nil => simp [buildIssueRows]
    | cons p rest ih =>
      cases p with
      | mk cls st =>
        by_cases hc : getQD st "urls_downloaded" 0 < getQD st "urls_found" 0
        · simp [buildIssueRows, List.filter_cons, hc, ih]
        · simp [buildIssueRows, List.filter_cons, hc, ih]
  refine ⟨?_, ?_, ?_⟩
  · intro kvs
    rw [create_quality_issues_df, key]
  · intro bd r hr
    induction bd with
    | nil => simp [buildIssueRows] at hr
    | cons p rest ih =>
      cases p with
      | mk cls st =>
        by_cases hc : getQD st "urls_downloaded" 0 < getQD st "urls_found" 0
        · rw [buildIssueRows, if_pos hc] at hr
          rcases List.mem_cons.mp hr with h | h
          · subst h
            refine ⟨rfl, rfl, hc, ?_⟩
            intro h0
            simp [mkIssueRow] at h0 ⊢
            simp [h0, rate100]
          · exact ih h
        · rw [buildIssueRows, if_neg hc] at hr
          exact ih hr
  · intro bd hall
    induction bd with
    | nil => simp [buildIssueRows]
    | cons p rest ih =>
      cases p with
      | mk cls st =>
        have he : getQD st "urls_found" 0 = getQD st "urls_downloaded" 0 :=
          hall (cls, st) (List.mem_cons_self _ _)
        have hc : ¬ getQD st "urls_downloaded" 0 < getQD st "urls_found" 0 := by
          rw [he]
          exact lt_irrefl _
        rw [buildIssueRows, if_neg hc]
        exact ih (fun p hp => hall p (List.mem_cons_of_mem _ hp))

/-- Witness for `quality_issues_table_spec`: a concrete breakdown with one
problematic class yields exactly its row, and its computed fields satisfy the
row equations. -/
theorem quality_issues_table_spec_witness :
    (mkIssueRow "sinigang" (Json.obj [("urls_found", Json.num 10), ("urls_downloaded", Json.num 8)]) ∈
      buildIssueRows
        [("adobo", Json.obj [("urls_found", Json.num 5), ("urls_downloaded", Json.num 5)]),
         ("sinigang", Json.obj [("urls_found", Json.num 10), ("urls_downloaded", Json.num 8)])]) ∧
    (mkIssueRow "sinigang" (Json.obj [("urls_found", Json.num 10), ("urls_downloaded", Json.num 8)])).missing_downloads =
      (mkIssueRow "sinigang" (Json.obj [("urls_found", Json.num 10), ("urls_downloaded", Json.num 8)])).urls_found -
        (mkIssueRow "sinigang" (Json.obj [("urls_found", Json.num 10), ("urls_downloaded", Json.num 8)])).urls_downloaded :=
  ⟨by
    simp [buildIssueRows, getQD, Json.objEntries, lookupKey, mkIssueRow]
    norm_num,
   (quality_issues_table_spec.2.1
      [("adobo", Json.obj [("urls_found", Json.num 5), ("urls_downloaded", Json.num 5)]),
       ("sinigang", Json.obj [("urls_found", Json.num 10), ("urls_downloaded", Json.num 8)])]
      (mkIssueRow "sinigang" (Json.obj [("urls_found", Json.num 10), ("urls_downloaded", Json.num 8)]))
      (by
        simp [buildIssueRows, getQD, Json.objEntries, lookupKey, mkIssueRow]
        norm_num)).1⟩

/-- C3: when `quantitative_statistics` is present, `get_overview_metrics`
returns `total_classes` = cardinality of `images_per_class`,
`total_categories` = cardinality of `images_per_category`, and
`avg_file_size_mb` = `file_size.average_bytes / (1024*1024)`; individually
missing fields default to 0; an absent `quantitative_statistics` fails with
`MissingDataError`. -/
theorem overview_metrics_spec :
    (∀ (kvs qkvs cls cats fsz : List (String × Json)) (avg : ℚ),
      lookupKey kvs "quantitative_statistics" = some (Json.obj qkvs) →
      lookupKey qkvs "images_per_class" = some (Json.obj cls) →
      lookupKey qkvs "images_per_category" = some (Json.obj cats) →
      lookupKey qkvs "file_size" = some (Json.obj fsz) →
      lookupKey fsz "average_bytes" = some (Json.num avg) →
      ∃ m, get_overview_metrics (Json.obj kvs) = Except.ok m ∧
        m.total_classes = cls.length ∧
        m.total_categories = cats.length ∧
        m.avg_file_size_mb = avg / (1024 * 1024)) ∧
    (get_overview_metrics (Json.obj [("quantitative_statistics", Json.obj [])]) =
      Except.ok
        { total_images := 0, total_classes := 0, total_categories := 0,
          success_rate := 0, avg_file_size_mb := 0 }) ∧
    (∀ kvs : List (String × Json),
      lookupKey kvs "quantitative_statistics" = none →
      get_overview_metrics (Json.obj kvs) = Except.error ExtractorError.missingData) := by
  refine ⟨?_, ?_, ?_⟩
  · intro kvs qkvs cls cats fsz avg hq hc hk hf ha
    simp only [get_overview_metrics, hq]
    refine ⟨_, rfl, ?_, ?_, ?_⟩
    · simp [getD, getQD, Json.objEntries, hc]
    · simp [getD, getQD, Json.objEntries, hk]
    · simp [getD, getQD, Json.objEntries, hf, ha]
  · simp [get_overview_metrics, getD, getQD, lookupKey, Json.objEntries]
  · intro kvs hq
    rw [get_overview_metrics, hq]

/-- Witness for `overview_metrics_spec`: the spec's end-to-end scenario with
`images_per_class = {cat: 3, dog: 5}`, one category, and a 2 MiB average
file size. -/
theorem overview_metrics_spec_witness :
    (lookupKey
        [("quantitative_statistics",
          Json.obj
            [("total_image_count", Json.num 8),
             ("images_per_class", Json.obj [("cat", Json.num 3), ("dog", Json.num 5)]),
             ("images_per_category", Json.obj [("Go", Json.num 8)]),
             ("file_size", Json.obj [("average_bytes", Json.num 2097152)])])]
        "quantitative_statistics" =
      some (Json.obj
        [("total_image_count", Json.num 8),
         ("images_per_class", Json.obj [("cat", Json.num 3), ("dog", Json.num 5)]),
         ("images_per_category", Json.obj [("Go", Json.num 8)]),
         ("file_size", Json.obj [("average_bytes", Json.num 2097152)])])) ∧
    (∃ m,
      get_overview_metrics
        (Json.obj
          [("quantitative_statistics",
            Json.obj
              [("total_image_count", Json.num 8),
               ("images_per_class", Json.obj [("cat", Json.num 3), ("dog", Json.num 5)]),
               ("images_per_category", Json.obj [("Go", Json.num 8)]),
               ("file_size", Json.obj [("average_bytes", Json.num 2097152)])])]) =
        Except.ok m ∧
      m.total_classes = [("cat", Json.num 3), ("dog", Json.num 5)].length ∧
      m.total_categories = [("Go", Json.num 8)].length ∧
      m.avg_file_size_mb = 2097152 / (1024 * 1024)) :=
  ⟨rfl, overview_metrics_spec.1 _ _ _ _ _ 2097152 rfl rfl rfl rfl rfl⟩

/-- C5: `get_duplicate_stats` is a pass-through with defaults of 0, so it
preserves the hash-summary invariant
`unique_count + duplicate_count = total_count` whenever the report's hash
summary satisfies it with a positive total. -/
theorem duplicate_stats_preserves_invariant :
    ∀ (kvs qkvs hsh : List (String × Json)) (u d t : ℚ),
      lookupKey kvs "quantitative_statistics" = some (Json.obj qkvs) →
      lookupKey qkvs "hashes" = some (Json.obj hsh) →
      lookupKey hsh "unique_count" = some (Json.num u) →
      lookupKey hsh "duplicate_count" = some (Json.num d) →
      lookupKey hsh "total_count" = some (Json.num t) →
      u + d = t → 0 < t →
      ∃ s, get_duplicate_stats (Json.obj kvs) = Except.ok s ∧
        s.unique_count + s.duplicate_count = s.total_count ∧
        0 < s.total_count := by
  intro kvs qkvs hsh u d t hq hh hu hd ht hsum hpos
  refine ⟨_, rfl, ?_, ?_⟩
  · simp [get_duplicate_stats, getD, getQD, Json.objEntries, hq, hh, hu, hd, ht]
    exact hsum
  · simp [get_duplicate_stats, getD, getQD, Json.objEntries, hq, hh, ht]
    exact hpos

/-- Witness for `duplicate_stats_preserves_invariant`: a concrete report with
a hash summary of 3 unique + 2 duplicate = 5 total. -/
theorem duplicate_stats_preserves_invariant_witness :
    ((3 : ℚ) + 2 = 5 ∧ (0 : ℚ) < 5) ∧
    (∃ s,
      get_duplicate_stats
        (Json.obj
          [("quantitative_statistics",
            Json.obj
              [("hashes",
                Json.obj
                  [("unique_count", Json.num 3),
                   ("duplicate_count", Json.num 2),
                   ("total_count", Json.num 5)])])]) =
        Except.ok s ∧
      s.unique_count + s.duplicate_count = s.total_count ∧
      0 < s.total_count) :=
  ⟨⟨by norm_num, by norm_num⟩,
    duplicate_stats_preserves_invariant _ _ _ 3 2 5 rfl rfl rfl rfl rfl
      (by norm_num) (by norm_num)⟩

/-- Counterexample to C4 as stated: `Json.obj []` is a mapping, yet
`get_overview_metrics` propagates an exception (`MissingDataError`) on it
because `quantitative_statistics` is absent — so nested-key absence is not
always handled by defaulting. -/
theorem overview_metrics_missing_raises :
    Json.isObj (Json.obj []) = true ∧
    get_overview_metrics (Json.obj []) = Except.error ExtractorError.missingData :=
  ⟨rfl, rfl⟩

/-- C4 (amended): every extractor function fails with `MalformedReportError`
exactly when the top-level argument is not a mapping; on a mapping argument,
every extractor except `get_overview_metrics` handles nested-key absence by
defaulting and returns a result; `get_overview_metrics` instead fails with
`MissingDataError` exactly when `quantitative_statistics` is absent. -/
theorem extractor_error_contract :
    (∀ j : Json,
      (get_overview_metrics j = Except.error ExtractorError.malformedReport ↔ j.isObj = false) ∧
      (get_file_size_stats j = Except.error ExtractorError.malformedReport ↔ j.isObj = false) ∧
      (get_dimension_stats j = Except.error ExtractorError.malformedReport ↔ j.isObj = false) ∧
      (extract_quantitative_stats j = Except.error ExtractorError.malformedReport ↔ j.isObj = false) ∧
      (get_temporal_metrics j = Except.error ExtractorError.malformedReport ↔ j.isObj = false) ∧
      (get_duplicate_stats j = Except.error ExtractorError.malformedReport ↔ j.isObj = false) ∧
      (extract_quality_stats j = Except.error ExtractorError.malformedReport ↔ j.isObj = false) ∧
      (create_quality_issues_df j = Except.error ExtractorError.malformedReport ↔ j.isObj = false)) ∧
    (∀ kvs : List (String × Json),
      (∃ r, get_file_size_stats (Json.obj kvs) = Except.ok r) ∧
      (∃ r, get_dimension_stats (Json.obj kvs) = Except.ok r) ∧
      (∃ r, extract_quantitative_stats (Json.obj kvs) = Except.ok r) ∧
      (∃ r, get_temporal_metrics (Json.obj kvs) = Except.ok r) ∧
      (∃ r, get_duplicate_stats (Json.obj kvs) = Except.ok r) ∧
      (∃ r, extract_quality_stats (Json.obj kvs) = Except.ok r) ∧
      (∃ r, create_quality_issues_df (Json.obj kvs) = Except.ok r)) ∧
    (∀ kvs : List (String × Json),
      get_overview_metrics (Json.obj kvs) = Except.error ExtractorError.missingData ↔
        lookupKey kvs "quantitative_statistics" = none) := by
  refine ⟨?_, ?_, ?_⟩
  · intro j
    cases j with
    | obj kvs =>
      cases hq : lookupKey kvs "quantitative_statistics" <;>
        simp [get_overview_metrics, get_file_size_stats, get_dimension_stats,
          extract_quantitative_stats, get_temporal_metrics, get_duplicate_stats,
          extract_quality_stats, create_quality_issues_df, Json.isObj, hq]
    | _ =>
      simp [get_overview_metrics, get_file_size_stats, get_dimension_stats,
        extract_quantitative_stats, get_temporal_metrics, get_duplicate_stats,
        extract_quality_stats, create_quality_issues_df, Json.isObj]
  · intro kvs
    exact ⟨⟨_, rfl⟩, ⟨_, rfl⟩, ⟨_, rfl⟩, ⟨_, rfl⟩, ⟨_, rfl⟩, ⟨_, rfl⟩, ⟨_, rfl⟩⟩
  · intro kvs
    cases hq : lookupKey kvs "quantitative_statistics" <;>
      simp [get_overview_metrics, hq]

/-- C8: every extractor operation is a pure function of its input — two
successive calls on the same report (and the same argument for the
formatters) return identical results, with no state carried between the
calls. -/
theorem extractors_idempotent (j : Json) (n : ℕ) (q : ℚ) :
    (callTwice get_overview_metrics j).1 = (callTwice get_overview_metrics j).2 ∧
    (callTwice get_file_size_stats j).1 = (callTwice get_file_size_stats j).2 ∧
    (callTwice get_dimension_stats j).1 = (callTwice get_dimension_stats j).2 ∧
    (callTwice extract_quantitative_stats j).1 = (callTwice extract_quantitative_stats j).2 ∧
    (callTwice get_temporal_metrics j).1 = (callTwice get_temporal_metrics j).2 ∧
    (callTwice get_duplicate_stats j).1 = (callTwice get_duplicate_stats j).2 ∧
    (callTwice extract_quality_stats j).1 = (callTwice extract_quality_stats j).2 ∧
    (callTwice create_quality_issues_df j).1 = (callTwice create_quality_issues_df j).2 ∧
    (callTwice format_bytes n).1 = (callTwice format_bytes n).2 ∧
    (callTwice format_duration q).1 = (callTwice format_duration q).2 :=
  ⟨rfl, rfl, rfl, rfl, rfl, rfl, rfl, rfl, rfl, rfl⟩

/-- C9: the report passed to an extractor is unchanged by the call — the
state-threaded call returns the input report itself as the post-call
report value. -/
theorem extractors_preserve_report (j : Json) :
    (callOn get_overview_metrics j).2 = j ∧
    (callOn get_file_size_stats j).2 = j ∧
    (callOn get_dimension_stats j).2 = j ∧
    (callOn extract_quantitative_stats j).2 = j ∧
    (callOn get_temporal_metrics j).2 = j ∧
    (callOn get_duplicate_stats j).2 = j ∧
    (callOn extract_quality_stats j).2 = j ∧
    (callOn create_quality_issues_df j).2 = j :=
  ⟨rfl, rfl, rfl, rfl, rfl, rfl, rfl, rfl⟩
